import Mathlib

/-!
Verification of the Salesforce CLI tool (`salesforce_cli.py`).

The program is a terminal client performing CRUD and CSV export against a
REST API.  We shallowly embed the pure decision logic of each function:
HTTP responses become a status code plus a parsed JSON value, interactive
input becomes explicit string arguments, and Python runtime faults
(AttributeError, KeyError, IndexError, ...) become an explicit `crash`
outcome.  Python dicts are modelled as insertion-ordered association
lists with string keys, matching dict iteration order.
-/

namespace SalesforceCli

/-- An ASCII whitespace character, as stripped by Python `str.strip()`. -/
def isSpace (c : Char) : Bool := c = ' ' ∨ c = '\t' ∨ c = '\n' ∨ c = '\r'

/-- Python `str.strip()`: remove whitespace from both ends. -/
def pyStrip (s : String) : String :=
  ⟨((s.data.dropWhile isSpace).reverse.dropWhile isSpace).reverse⟩

/-- Python `str.lower()` on the ASCII strings this program handles. -/
def pyLower (s : String) : String := ⟨s.data.map Char.toLower⟩

/-- The numeric value of a decimal digit character. -/
def digitVal (c : Char) : Nat := c.toNat - 48

/-- Python `int(s)` on the inputs this program sees: the parsed number
for a (possibly whitespace-padded) run of digits, `none` for the
ValueError crash on anything else. -/
def pyInt (s : String) : Option Nat :=
  let t := pyStrip s
  if t.data ≠ [] ∧ t.data.all Char.isDigit then
    some (t.data.foldl (fun acc c => 10 * acc + digitVal c) 0)
  else none

/-- A parsed JSON value, as returned by `response.json()`. -/
inductive Json where
  | null : Json
  | bool (b : Bool) : Json
  | num (n : Int) : Json
  | str (s : String) : Json
  | arr (elems : List Json) : Json
  | obj (fields : List (String × Json)) : Json

/-- `d.get(k)` on a Python dict modelled as an insertion-ordered
association list: first binding for the key, if any. -/
def lookupKey : List (String × Json) → String → Option Json
  | [], _ => none
  | (k, v) :: rest, key => if k = key then some v else lookupKey rest key

/-- Python truthiness (`if result:`, `if not records:`) of a JSON value:
`None`, `False`, `0`, `""`, `[]` and `{}` are falsy. -/
def json_truthy : Json → Bool
  | .null => false
  | .bool b => b
  | .num n => n != 0
  | .str s => !s.isEmpty
  | .arr elems => !elems.isEmpty
  | .obj fields => !fields.isEmpty

/-- The record, if it is a JSON object (a Python dict); `.items()` /
`.keys()` on anything else raises. -/
def asObj : Json → Option (List (String × Json))
  | .obj fields => some fields
  | _ => none

/-- What `sf_request` hands back to its caller: the parsed JSON body,
the sentinel `None` after a reported error, or an unhandled Python
exception propagating out. -/
inductive SfResult where
  | ok (body : Json) : SfResult
  | failure : SfResult
  | crash : SfResult

/-- The ≥ 400 branch of `sf_request` after the one-element-list unwrap:
`error.get('message', error)` prints and `None` is returned when `error`
is a dict; on any other value `.get` raises AttributeError. -/
def handleHttpError : Json → SfResult
  | .obj _ => .failure
  | _ => .crash

/-- `sf_request` (src/salesforce_cli.py lines 65-84), abstracted over the
HTTP response it receives: status 204 returns the empty dict, status
≥ 400 unwraps a list body to its first element (IndexError when empty),
reports the error and returns `None` when that is a dict, and any other
status returns the parsed body. -/
def sf_request (status : Nat) (body : Json) : SfResult :=
  if status = 204 then .ok (.obj [])
  else if status ≥ 400 then
    match body with
    | .arr [] => .crash
    | .arr (e :: _) => handleHttpError e
    | e => handleHttpError e
  else .ok body

/-- The `field_map` of `query_records` (lines 89-96), including the
`.get(sobject, "Id, Name")` fallback. -/
def query_field_map (sobject : String) : String :=
  if sobject = "Account" then "Id, Name, Industry, Phone, CreatedDate"
  else if sobject = "Contact" then "Id, FirstName, LastName, Email, Phone, AccountId"
  else if sobject = "Lead" then "Id, FirstName, LastName, Company, Status, Email"
  else if sobject = "Opportunity" then "Id, Name, StageName, Amount, CloseDate, AccountId"
  else "Id, Name"

/-- The `field_map` of `export_to_csv` (lines 214-221), including the
`.get(sobject, "Id, Name")` fallback. -/
def export_field_map (sobject : String) : String :=
  if sobject = "Account" then "Id, Name, Industry, Phone, CreatedDate"
  else if sobject = "Contact" then "Id, FirstName, LastName, Email, Phone"
  else if sobject = "Lead" then "Id, FirstName, LastName, Company, Status, Email"
  else if sobject = "Opportunity" then "Id, Name, StageName, Amount, CloseDate"
  else "Id, Name"

/-- The SOQL string built by `query_records` (line 97). -/
def query_soql (sobject : String) (limit : Nat) : String :=
  "SELECT " ++ query_field_map sobject ++ " FROM " ++ sobject ++ " LIMIT " ++ toString limit

/-- The SOQL string built by `export_to_csv` (line 222). -/
def export_soql (sobject : String) : String :=
  "SELECT " ++ export_field_map sobject ++ " FROM " ++ sobject

/-- `query.replace(' ', '+')` (lines 100 and 223). -/
def plusEncode (s : String) : String :=
  ⟨s.data.map fun c => if c = ' ' then '+' else c⟩

/-- The GET endpoint issued by `query_records` (line 100). -/
def query_endpoint (sobject : String) (limit : Nat) : String :=
  "/query?q=" ++ plusEncode (query_soql sobject limit)

/-- The GET endpoint issued by `export_to_csv` (line 223). -/
def export_endpoint (sobject : String) : String :=
  "/query?q=" ++ plusEncode (export_soql sobject)

/-- The record limit `main` passes to `query_records` (lines 293-294):
`input(...).strip() or "10"` then `int(...)`; `none` models the crash on
non-numeric input. -/
def effective_limit (userInput : String) : Option Nat :=
  let t := pyStrip userInput
  pyInt (if t = "" then "10" else t)

/-- What `delete_record` (lines 195-209) does, as a function of the two
interactive inputs: abort on a blank id, cancel unless the trimmed,
lowercased confirmation is "yes", otherwise issue the DELETE request. -/
inductive DeleteOutcome where
  | abortedNoId : DeleteOutcome
  | cancelled : DeleteOutcome
  | requested (endpoint : String) : DeleteOutcome

/-- `delete_record` (lines 195-209) abstracted over the two `input()`
values; the gateway call and its result only happen in the
`requested` case. -/
def delete_record (sobject recordIdInput confirmInput : String) : DeleteOutcome :=
  let recordId := pyStrip recordIdInput
  if recordId = "" then .abortedNoId
  else if pyLower (pyStrip confirmInput) = "yes" then
    .requested ("/sobjects/" ++ sobject ++ "/" ++ recordId)
  else .cancelled

/-- What `create_record` / `update_record` do before calling the
gateway: abort with a message, or issue a request with a payload. -/
inductive OpOutcome where
  | aborted : OpOutcome
  | requested (method endpoint : String) (payload : List (String × String)) : OpOutcome

/-- The `field_prompts` table of `create_record` (lines 123-145): the
per-object prompted fields, in dict insertion order, with the
`.get(sobject, {})` fallback to no fields. -/
def create_fields (sobject : String) : List String :=
  if sobject = "Account" then ["Name", "Industry", "Phone"]
  else if sobject = "Contact" then ["FirstName", "LastName", "Email", "Phone"]
  else if sobject = "Lead" then ["FirstName", "LastName", "Company", "Email"]
  else if sobject = "Opportunity" then ["Name", "StageName", "CloseDate", "Amount"]
  else []

/-- The `field_options` table of `update_record` (lines 174-181), with
the `.get(sobject, [])` fallback. -/
def update_fields (sobject : String) : List String :=
  if sobject = "Account" then ["Name", "Industry", "Phone"]
  else if sobject = "Contact" then ["FirstName", "LastName", "Email", "Phone"]
  else if sobject = "Lead" then ["FirstName", "LastName", "Company", "Status"]
  else if sobject = "Opportunity" then ["Name", "StageName", "Amount", "CloseDate"]
  else []

/-- The prompt loops of `create_record` (lines 149-152) and
`update_record` (lines 181-184): each field's input is stripped and the
field is added to the payload only when the result is non-blank.
`inputs` gives the user's raw answer for each prompted field. -/
def build_payload (fields : List String) (inputs : String → String) :
    List (String × String) :=
  fields.filterMap fun f =>
    let v := pyStrip (inputs f)
    if v = "" then none else some (f, v)

/-- `create_record` (lines 121-158) up to the gateway call: build the
payload from the prompts, abort when it is empty, otherwise POST it. -/
def create_record (sobject : String) (inputs : String → String) : OpOutcome :=
  let data := build_payload (create_fields sobject) inputs
  if data.isEmpty then .aborted
  else .requested "POST" ("/sobjects/" ++ sobject) data

/-- `update_record` (lines 164-190) up to the gateway call: abort on a
blank id, build the update payload, abort when it is empty, otherwise
PATCH it. -/
def update_record (sobject recordIdInput : String) (inputs : String → String) :
    OpOutcome :=
  let recordId := pyStrip recordIdInput
  if recordId = "" then .aborted
  else
    let updates := build_payload (update_fields sobject) inputs
    if updates.isEmpty then .aborted
    else .requested "PATCH" ("/sobjects/" ++ sobject ++ "/" ++ recordId) updates

/-- The success check of `create_record` (line 159): `if result:` is
Python truthiness, so `None` and the empty dict both suppress the
success message. -/
def create_record_reports_success : SfResult → Bool
  | .ok body => json_truthy body
  | _ => false

/-- The success check of `update_record` (line 191): `if result is not
None:` — the empty dict from a 204 does report success. -/
def update_record_reports_success : SfResult → Bool
  | .ok _ => true
  | _ => false

/-- The success check of `delete_record` (line 208), identical to
`update_record`'s: `if result is not None:`. -/
def delete_record_reports_success : SfResult → Bool
  | .ok _ => true
  | _ => false

/-- The value `query_records` returns (lines 100-118) as a function of
the gateway result: `[]` when `not result` (sentinel `None`, or any
falsy body such as the 204 empty dict), `result.get("records", [])`
when that is empty, otherwise the record list itself after the display
loop ran without a fault.  `none` models an unhandled exception:
`.get` on a non-dict body, the `result['totalSize']` KeyError, a
truthy non-list `records` value, or `.items()` on a non-dict record. -/
def query_records_return (res : SfResult) : Option (List Json) :=
  match res with
  | .crash => none
  | .failure => some []
  | .ok body =>
    if ¬ json_truthy body then some []
    else match body with
      | .obj fields =>
        match lookupKey fields "records" with
        | none => some []
        | some (.arr []) => some []
        | some (.arr (r :: rs)) =>
          if (lookupKey fields "totalSize").isSome ∧ (r :: rs).all (asObj · |>.isSome)
          then some (r :: rs) else none
        | some v => if json_truthy v then none else some []
      | _ => none

/-- The header row of the export CSV (line 236): the keys of the first
record, in dict order, minus the metadata key `attributes`. -/
def csv_fieldnames (record : List (String × Json)) : List String :=
  (record.map Prod.fst).filter (· ≠ "attributes")

/-- The `row` dict written for one record (line 241): the record minus
the `attributes` key. -/
def dict_row (record : List (String × Json)) : List (String × Json) :=
  record.filter fun kv => kv.1 ≠ "attributes"

/-- `csv.DictWriter.writerow` on one row dict: the cell values in
`fieldnames` order, the empty-string `restval` filling absent keys;
`none` models the ValueError raised when the row has a key outside
`fieldnames`. -/
def write_row (fieldnames : List String) (row : List (String × Json)) :
    Option (List Json) :=
  if row.all (fun kv => kv.1 ∈ fieldnames) then
    some (fieldnames.map fun f => (lookupKey row f).getD (.str ""))
  else none

/-- The cells `DictWriter` emits for one returned record: filter
`attributes` out, then lay the values out in header order. -/
def csv_row (fieldnames : List String) (record : List (String × Json)) :
    Option (List Json) :=
  write_row fieldnames (dict_row record)

/-- What `export_to_csv` leaves behind: no file, a file with a header
row and data rows, or an unhandled exception. -/
inductive ExportOutcome where
  | noFile : ExportOutcome
  | written (header : List String) (rows : List (List Json)) : ExportOutcome
  | crash : ExportOutcome

/-- The rows of the CSV body (lines 240-242): one per record, in
order; `none` when some record is not a dict or triggers the
`DictWriter` extra-key ValueError. -/
def export_rows (fieldnames : List String) (records : List Json) :
    Option (List (List Json)) :=
  records.mapM fun r => asObj r >>= csv_row fieldnames

/-- `export_to_csv` (lines 212-244) as a function of the gateway
result: return without a file when `not result` or the record list is
empty, otherwise write a CSV with the first record's non-metadata keys
as header and one row per record in order. -/
def export_to_csv (res : SfResult) : ExportOutcome :=
  match res with
  | .crash => .crash
  | .failure => .noFile
  | .ok body =>
    if ¬ json_truthy body then .noFile
    else match body with
      | .obj fields =>
        match lookupKey fields "records" with
        | none => .noFile
        | some (.arr []) => .noFile
        | some (.arr (r :: rs)) =>
          match asObj r with
          | none => .crash
          | some rec0 =>
            match export_rows (csv_fieldnames rec0) (r :: rs) with
            | none => .crash
            | some rows => .written (csv_fieldnames rec0) rows
        | some v => if json_truthy v then .crash else .noFile
      | _ => .crash

/-- The three environment variables `authenticate` requires, as read by
`os.getenv` (lines 28-30): absent or a string. -/
structure Env where
  sfInstanceUrl : Option String
  sfConsumerKey : Option String
  sfConsumerSecret : Option String

/-- Python truthiness of an `os.getenv` result inside
`all([...])` (line 38): unset and the empty string both fail. -/
def envSet : Option String → Bool
  | none => false
  | some s => !s.isEmpty

/-- How `authenticate` ends: process exit 1 before any network call,
exit 1 after the token exchange, a session dict, or an unhandled
exception. -/
inductive AuthOutcome where
  | exitBeforeNetwork : AuthOutcome
  | exitAfterToken : AuthOutcome
  | session (accessToken instanceUrl : Json) : AuthOutcome
  | crash : AuthOutcome

/-- `authenticate` (lines 36-62) abstracted over the token-exchange
response: missing env vars exit 1 with no request sent; a non-200
status prints the parsed error and exits 1 (`.get` on a non-dict body
raises instead); a 200 returns the session built from `access_token`
and `instance_url` (KeyError when absent). -/
def authenticate (env : Env) (status : Nat) (body : Json) : AuthOutcome :=
  if ¬ (envSet env.sfInstanceUrl ∧ envSet env.sfConsumerKey ∧ envSet env.sfConsumerSecret)
  then .exitBeforeNetwork
  else if status ≠ 200 then
    match body with
    | .obj _ => .exitAfterToken
    | _ => .crash
  else
    match body with
    | .obj fields =>
      match lookupKey fields "access_token", lookupKey fields "instance_url" with
      | some t, some u => .session t u
      | _, _ => .crash
    | _ => .crash

/-- The four supported object types (line 33); `select_object`
(lines 247-257) can only return an element of this list. -/
def SUPPORTED_OBJECTS : List String :=
  ["Account", "Contact", "Lead", "Opportunity"]

/-- The inputs of the create-Contact scenario: FirstName answered
"Jane", every other prompt left blank. -/
def janeInputs : String → String :=
  fun f => if f = "FirstName" then "Jane" else ""

/-! ## Theorems -/

/-- When every record is a dict whose non-metadata keys lie in the
header, the CSV body is one row per record, in order, with cells laid
out in header order and the empty-string default for absent keys. -/
theorem export_rows_map_obj (fieldnames : List String) :
    ∀ os : List (List (String × Json)),
      (∀ o ∈ os, ∀ kv ∈ dict_row o, kv.1 ∈ fieldnames) →
      export_rows fieldnames (os.map Json.obj) =
        some (os.map fun o =>
          fieldnames.map fun f => (lookupKey (dict_row o) f).getD (.str "")) := by
  intro os
  induction os with
  | nil => intro h; rfl
  | cons o os ih =>
    intro h
    have ho : (dict_row o).all (fun kv => decide (kv.1 ∈ fieldnames)) = true := by
      simp only [List.all_eq_true, decide_eq_true_eq]
      exact h o (List.mem_cons_self o os)
    have hrest := ih fun o' ho' => h o' (List.mem_cons_of_mem _ ho')
    simp only [export_rows, List.map_cons, List.mapM_cons] at hrest ⊢
    rw [hrest]
    simp [asObj, csv_row, write_row, ho]

/-- Claim C1 counterexample: the Contact field list used by
`query_records` is not the one used by `export_to_csv` (the export map
drops `AccountId`), so the two operations do not share one per-object
field whitelist. -/
theorem c1_field_lists_differ_on_contact :
    (query_field_map "Contact" == export_field_map "Contact") = false
    ∧ query_field_map "Contact" = "Id, FirstName, LastName, Email, Phone, AccountId"
    ∧ export_field_map "Contact" = "Id, FirstName, LastName, Email, Phone" := by
  exact ⟨by decide, rfl, rfl⟩

/-- Claim C1 (amended): for Account and Lead the export SOQL is exactly
the query SOQL minus the LIMIT clause; for Contact and Opportunity the
export field list additionally drops the trailing `AccountId`, so every
object type falls in one of those two cases. -/
theorem c1_export_query_field_lists :
    (∀ s n, (query_soql s n = export_soql s ++ " LIMIT " ++ toString n
        ∧ query_field_map s = export_field_map s)
      ∨ query_field_map s = export_field_map s ++ ", AccountId")
    ∧ query_field_map "Account" = export_field_map "Account"
    ∧ query_field_map "Lead" = export_field_map "Lead"
    ∧ query_field_map "Contact" = export_field_map "Contact" ++ ", AccountId"
    ∧ query_field_map "Opportunity" = export_field_map "Opportunity" ++ ", AccountId" := by
  refine ⟨?_, rfl, rfl, by decide, by decide⟩
  intro s n
  by_cases h1 : s = "Account"
  · subst h1; exact Or.inl ⟨rfl, rfl⟩
  by_cases h2 : s = "Contact"
  · subst h2; exact Or.inr (by decide)
  by_cases h3 : s = "Lead"
  · subst h3; exact Or.inl ⟨rfl, rfl⟩
  by_cases h4 : s = "Opportunity"
  · subst h4; exact Or.inr (by decide)
  refine Or.inl ⟨?_, ?_⟩
  · simp only [query_soql, export_soql, query_field_map, export_field_map, h1, h2, h3, h4,
      if_false]
  · simp only [query_field_map, export_field_map, h1, h2, h3, h4, if_false]

/-- Claim C3: for each of the four object types `query_records` builds
exactly `SELECT <configured fields> FROM <Type> LIMIT <n>`, the GET
endpoint is that string with each space turned into `+`, the limit
defaults to 10 on blank input, and the Account/limit-5 scenario yields
the exact query string and endpoint. -/
theorem c3_query_soql_shape :
    (∀ n, query_soql "Account" n =
      "SELECT Id, Name, Industry, Phone, CreatedDate FROM Account LIMIT " ++ toString n)
    ∧ (∀ n, query_soql "Contact" n =
      "SELECT Id, FirstName, LastName, Email, Phone, AccountId FROM Contact LIMIT " ++
        toString n)
    ∧ (∀ n, query_soql "Lead" n =
      "SELECT Id, FirstName, LastName, Company, Status, Email FROM Lead LIMIT " ++ toString n)
    ∧ (∀ n, query_soql "Opportunity" n =
      "SELECT Id, Name, StageName, Amount, CloseDate, AccountId FROM Opportunity LIMIT " ++
        toString n)
    ∧ (∀ s n, query_endpoint s n = "/query?q=" ++ plusEncode (query_soql s n))
    ∧ effective_limit "" = some 10
    ∧ effective_limit "   " = some 10
    ∧ effective_limit "5" = some 5
    ∧ query_soql "Account" 5 = "SELECT Id, Name, Industry, Phone, CreatedDate FROM Account LIMIT 5"
    ∧ query_endpoint "Account" 5 =
      "/query?q=SELECT+Id,+Name,+Industry,+Phone,+CreatedDate+FROM+Account+LIMIT+5" := by
  exact ⟨fun n => rfl, fun n => rfl, fun n => rfl, fun n => rfl, fun s n => rfl,
    by decide, by decide, by decide, rfl, by decide⟩

/-- Claim C9: outside the four supported object types both field maps
silently fall back to "Id, Name" and the SOQL strings are still built
against the given type, so neither `query_records` nor `export_to_csv`
fails on an unsupported type. -/
theorem c9_unsupported_object_fallback :
    ∀ sobject, sobject ∉ SUPPORTED_OBJECTS →
      query_field_map sobject = "Id, Name"
      ∧ export_field_map sobject = "Id, Name"
      ∧ (∀ n, query_soql sobject n = "SELECT Id, Name FROM " ++ sobject ++ " LIMIT " ++ toString n)
      ∧ export_soql sobject = "SELECT Id, Name FROM " ++ sobject := by
  intro sobject hs
  simp only [SUPPORTED_OBJECTS, List.mem_cons, List.mem_singleton, not_or] at hs
  obtain ⟨h1, h2, h3, h4⟩ := hs
  refine ⟨?_, ?_, ?_, ?_⟩
  · simp only [query_field_map, h1, h2, h3, h4, if_false]
  · simp only [export_field_map, h1, h2, h3, h4, if_false]
  · intro n
    simp only [query_soql, query_field_map, h1, h2, h3, h4, if_false]
    rfl
  · simp only [export_soql, export_field_map, h1, h2, h3, h4, if_false]
    rfl

/-- Claim C9 witness: the fallback at the unsupported type "Case". -/
theorem c9_unsupported_object_fallback_witness :
    query_field_map "Case" = "Id, Name" ∧ export_soql "Case" = "SELECT Id, Name FROM Case" :=
  ⟨(c9_unsupported_object_fallback "Case" (by decide)).1,
   (c9_unsupported_object_fallback "Case" (by decide)).2.2.2⟩

/-- Claim C2 counterexample: a 400 response whose JSON body is the
string "boom" makes `error.get(...)` raise AttributeError, so
`sf_request` propagates an unhandled fault instead of returning the
`None` sentinel. -/
theorem c2_error_body_string_crashes :
    sf_request 400 (Json.str "boom") = SfResult.crash
    ∧ (handleHttpError (Json.str "boom") matches SfResult.failure) = false :=
  ⟨rfl, rfl⟩

/-- Claim C2 (amended): `sf_request` maps 204 to the empty dict for
every body, and maps every status ≥ 400 whose JSON error body is an
object — or a list whose first element is an object — to the printed
failure sentinel; with any other error-body shape the handler itself
raises. -/
theorem c2_gateway_error_translation :
    (∀ body, sf_request 204 body = .ok (.obj []))
    ∧ (∀ status kvs, 400 ≤ status →
        sf_request status (.obj kvs) = .failure)
    ∧ (∀ status kvs rest, 400 ≤ status →
        sf_request status (.arr (.obj kvs :: rest)) = .failure)
    ∧ (∀ status body, status ≠ 204 → status < 400 →
        sf_request status body = .ok body) := by
  refine ⟨fun body => rfl, ?_, ?_, ?_⟩
  · intro status kvs h
    have h204 : ¬ status = 204 := by omega
    simp [sf_request, h204, h, handleHttpError]
  · intro status kvs rest h
    have h204 : ¬ status = 204 := by omega
    simp [sf_request, h204, h, handleHttpError]
  · intro status body h204 hlt
    have : ¬ 400 ≤ status := by omega
    simp [sf_request, h204, this]

/-- Claim C2 witness: a 404 with a one-element list error body is
unwrapped and reported, and a 201 passes its body through. -/
theorem c2_gateway_error_translation_witness :
    sf_request 404 (.arr [.obj [("message", .str "not found")]]) = .failure
    ∧ sf_request 201 (.obj [("id", .str "x")]) = .ok (.obj [("id", .str "x")]) :=
  ⟨c2_gateway_error_translation.2.2.1 404 [("message", .str "not found")] [] (by decide),
   c2_gateway_error_translation.2.2.2 201 _ (by decide) (by decide)⟩

/-- Claim C4: `delete_record` issues its DELETE request exactly when
the stripped record id is non-blank and the stripped, lowercased
confirmation equals "yes"; in every other case it aborts or cancels
without touching the gateway, and the "no" scenario cancels. -/
theorem c4_delete_requires_yes :
    (∀ sobject rid confirm,
      (delete_record sobject rid confirm matches DeleteOutcome.requested _) = true
        ↔ (pyStrip rid = "") = false ∧ pyLower (pyStrip confirm) = "yes")
    ∧ (∀ sobject rid confirm,
        (pyLower (pyStrip confirm) = "yes") = False →
          delete_record sobject rid confirm = .abortedNoId
          ∨ delete_record sobject rid confirm = .cancelled)
    ∧ delete_record "Account" "001XX000003DHPh" "no" = .cancelled
    ∧ delete_record "Account" "001XX000003DHPh" "  YES " =
        .requested "/sobjects/Account/001XX000003DHPh" := by
  refine ⟨?_, ?_, rfl, rfl⟩
  · intro sobject rid confirm
    unfold delete_record
    by_cases h1 : pyStrip rid = "" <;> by_cases h2 : pyLower (pyStrip confirm) = "yes" <;>
      simp [h1, h2]
  · intro sobject rid confirm h
    unfold delete_record
    by_cases h1 : pyStrip rid = ""
    · simp [h1]
    · simp [h1, h]

/-- Claim C4 witness: the "yes"-path characterization and the
cancellation path, at concrete inputs. -/
theorem c4_delete_requires_yes_witness :
    ((delete_record "Lead" " 00QX1 " "Yes" matches DeleteOutcome.requested _) = true)
    ∧ (delete_record "Lead" "00QX1" "nope" = .abortedNoId
        ∨ delete_record "Lead" "00QX1" "nope" = .cancelled) :=
  ⟨(c4_delete_requires_yes.1 "Lead" " 00QX1 " "Yes").mpr ⟨by decide, by decide⟩,
   c4_delete_requires_yes.2.1 "Lead" "00QX1" "nope" (by decide)⟩

/-- Claim C5: create and update payloads contain exactly the prompted
fields whose stripped input is non-blank, both operations abort with no
request when every input is blank (update also on a blank id), and the
Jane scenario submits a payload holding only FirstName. -/
theorem c5_blank_fields_omitted :
    (∀ sobject (inputs : String → String) f v,
      (f, v) ∈ build_payload (create_fields sobject) inputs
        ↔ f ∈ create_fields sobject ∧ pyStrip (inputs f) = v ∧ (v = "") = False)
    ∧ (∀ sobject (inputs : String → String) f v,
      (f, v) ∈ build_payload (update_fields sobject) inputs
        ↔ f ∈ update_fields sobject ∧ pyStrip (inputs f) = v ∧ (v = "") = False)
    ∧ (∀ sobject inputs, (∀ f ∈ create_fields sobject, pyStrip (inputs f) = "") →
        create_record sobject inputs = .aborted)
    ∧ (∀ sobject rid inputs, (∀ f ∈ update_fields sobject, pyStrip (inputs f) = "") →
        update_record sobject rid inputs = .aborted)
    ∧ (∀ sobject inputs,
        create_record sobject inputs = .aborted
        ∨ create_record sobject inputs =
            .requested "POST" ("/sobjects/" ++ sobject)
              (build_payload (create_fields sobject) inputs))
    ∧ create_record "Contact" janeInputs =
        .requested "POST" "/sobjects/Contact" [("FirstName", "Jane")] := by
  refine ⟨?_, ?_, ?_, ?_, ?_, rfl⟩
  · intro sobject inputs f v
    simp only [build_payload, List.mem_filterMap]
    constructor
    · rintro ⟨a, ha, hsome⟩
      by_cases hblank : pyStrip (inputs a) = "" <;> simp [hblank] at hsome
      obtain ⟨rfl, rfl⟩ := hsome
      exact ⟨ha, rfl, by simp [hblank]⟩
    · rintro ⟨hf, rfl, hne⟩
      refine ⟨f, hf, ?_⟩
      simp only [eq_iff_iff, iff_false] at hne
      simp [hne]
  · intro sobject inputs f v
    simp only [build_payload, List.mem_filterMap]
    constructor
    · rintro ⟨a, ha, hsome⟩
      by_cases hblank : pyStrip (inputs a) = "" <;> simp [hblank] at hsome
      obtain ⟨rfl, rfl⟩ := hsome
      exact ⟨ha, rfl, by simp [hblank]⟩
    · rintro ⟨hf, rfl, hne⟩
      refine ⟨f, hf, ?_⟩
      simp only [eq_iff_iff, iff_false] at hne
      simp [hne]
  · intro sobject inputs hblank
    have : build_payload (create_fields sobject) inputs = [] := by
      simp only [build_payload, List.filterMap_eq_nil_iff]
      intro f hf
      simp [hblank f hf]
    simp [create_record, this]
  · intro sobject rid inputs hblank
    have : build_payload (update_fields sobject) inputs = [] := by
      simp only [build_payload, List.filterMap_eq_nil_iff]
      intro f hf
      simp [hblank f hf]
    by_cases hr : pyStrip rid = "" <;> simp [update_record, hr, this]
  · intro sobject inputs
    by_cases h : (build_payload (create_fields sobject) inputs).isEmpty <;>
      simp [create_record, h]

/-- Claim C5 witness: blank create inputs abort, and the Contact
payload characterization at the Jane inputs. -/
theorem c5_blank_fields_omitted_witness :
    create_record "Opportunity" (fun _ => "   ") = .aborted
    ∧ ("FirstName", "Jane") ∈ build_payload (create_fields "Contact") janeInputs :=
  ⟨c5_blank_fields_omitted.2.2.1 "Opportunity" (fun _ => "   ") (fun f _ => by show pyStrip "   " = ""; decide),
   (c5_blank_fields_omitted.1 "Contact" janeInputs "FirstName" "Jane").mpr
     ⟨by decide, by decide, by simp⟩⟩

/-- Claim C6: `export_to_csv` writes nothing on gateway failure or when
zero records come back, and otherwise produces a header equal to the
first record's keys minus the metadata key `attributes` followed by one
data row per record, in the order returned, with cells in header order. -/
theorem c6_export_csv_shape :
    export_to_csv .failure = .noFile
    ∧ (∀ kvs, lookupKey kvs "records" = some (.arr []) →
        export_to_csv (.ok (.obj kvs)) = .noFile)
    ∧ (∀ kvs, lookupKey kvs "records" = none →
        export_to_csv (.ok (.obj kvs)) = .noFile)
    ∧ (∀ kvs (o0 : List (String × Json)) (os : List (List (String × Json))),
        lookupKey kvs "records" = some (.arr ((o0 :: os).map Json.obj)) →
        (∀ o ∈ o0 :: os, ∀ kv ∈ dict_row o, kv.1 ∈ csv_fieldnames o0) →
        export_to_csv (.ok (.obj kvs)) =
          .written (csv_fieldnames o0)
            ((o0 :: os).map fun o =>
              (csv_fieldnames o0).map fun f => (lookupKey (dict_row o) f).getD (.str ""))) := by
  refine ⟨rfl, ?_, ?_, ?_⟩
  · intro kvs h
    cases kvs with
    | nil => rfl
    | cons hd tl =>
      simp only [export_to_csv, json_truthy]
      rw [h]
      simp
  · intro kvs h
    cases kvs with
    | nil => rfl
    | cons hd tl =>
      simp only [export_to_csv, json_truthy]
      rw [h]
      simp
  · intro kvs o0 os hrec hkeys
    have hrows := export_rows_map_obj (csv_fieldnames o0) (o0 :: os) hkeys
    cases kvs with
    | nil => simp [lookupKey] at hrec
    | cons hd tl =>
      simp only [List.map_cons] at hrec hrows
      simp only [export_to_csv, json_truthy]
      rw [hrec]
      simp only [asObj]
      rw [hrows]
      simp

/-- Claim C6 witness: a two-record result is written with header
\["Id", "Name"\] and one row per record in order; an empty result
writes no file. -/
theorem c6_export_csv_shape_witness :
    export_to_csv (.ok (.obj [("totalSize", .num 2), ("records", .arr
        [.obj [("attributes", .null), ("Id", .str "1"), ("Name", .str "A")],
         .obj [("attributes", .null), ("Id", .str "2"), ("Name", .str "B")]])])) =
      .written ["Id", "Name"] [[.str "1", .str "A"], [.str "2", .str "B"]]
    ∧ export_to_csv (.ok (.obj [("totalSize", .num 0), ("records", .arr [])])) = .noFile := by
  constructor
  · have h := c6_export_csv_shape.2.2.2
      [("totalSize", .num 2), ("records", .arr
        [.obj [("attributes", .null), ("Id", .str "1"), ("Name", .str "A")],
         .obj [("attributes", .null), ("Id", .str "2"), ("Name", .str "B")]])]
      [("attributes", .null), ("Id", .str "1"), ("Name", .str "A")]
      [[("attributes", .null), ("Id", .str "2"), ("Name", .str "B")]]
      rfl (by decide)
    rw [h]
    rfl
  · exact c6_export_csv_shape.2.1
      [("totalSize", .num 0), ("records", .arr [])] rfl

/-- Claim C7: `query_records` returns the empty list on the gateway
failure sentinel and when the platform sends zero records (an empty or
absent `records` entry), and returns exactly the response's record list
when it is present, `totalSize` exists and each record is a dict. -/
theorem c7_query_records_return :
    query_records_return .failure = some []
    ∧ (∀ kvs, lookupKey kvs "records" = none →
        query_records_return (.ok (.obj kvs)) = some [])
    ∧ (∀ kvs, lookupKey kvs "records" = some (.arr []) →
        query_records_return (.ok (.obj kvs)) = some [])
    ∧ (∀ kvs recs, lookupKey kvs "records" = some (.arr recs) →
        (lookupKey kvs "totalSize").isSome = true →
        (∀ r ∈ recs, (asObj r).isSome = true) →
        query_records_return (.ok (.obj kvs)) = some recs) := by
  refine ⟨rfl, ?_, ?_, ?_⟩
  · intro kvs h
    cases kvs with
    | nil => rfl
    | cons hd tl =>
      simp only [query_records_return, json_truthy]
      rw [h]
      simp
  · intro kvs h
    cases kvs with
    | nil => rfl
    | cons hd tl =>
      simp only [query_records_return, json_truthy]
      rw [h]
      simp
  · intro kvs recs hrec htot hobjs
    cases kvs with
    | nil => simp [lookupKey] at hrec
    | cons hd tl =>
      cases recs with
      | nil =>
        simp only [query_records_return, json_truthy]
        rw [hrec]
        simp
      | cons r rs =>
        have hall : (r :: rs).all (fun x => (asObj x).isSome) = true := by
          simp only [List.all_eq_true]
          exact fun x hx => hobjs x hx
        simp only [query_records_return, json_truthy]
        rw [hrec]
        simp [htot, hall]

/-- Claim C7 witness: a well-formed one-record response returns exactly
its record list. -/
theorem c7_query_records_return_witness :
    query_records_return (.ok (.obj [("totalSize", .num 1),
        ("records", .arr [.obj [("Id", .str "1")]])])) =
      some [.obj [("Id", .str "1")]] :=
  c7_query_records_return.2.2.2
    [("totalSize", .num 1), ("records", .arr [.obj [("Id", .str "1")]])]
    [.obj [("Id", .str "1")]] rfl rfl
    (by intro r hr; simp at hr; subst hr; rfl)

/-- Claim C8: `authenticate` exits 1 before any network call when an
environment variable is missing, exits 1 after printing the error when
the token exchange is non-200 with a JSON-object body, and on a 200
returns the session built from `access_token` and `instance_url`. -/
theorem c8_authenticate_outcomes :
    (∀ env status body,
      ¬ (envSet env.sfInstanceUrl = true ∧ envSet env.sfConsumerKey = true
          ∧ envSet env.sfConsumerSecret = true) →
      authenticate env status body = .exitBeforeNetwork)
    ∧ (∀ env status kvs,
        envSet env.sfInstanceUrl = true → envSet env.sfConsumerKey = true →
        envSet env.sfConsumerSecret = true → status ≠ 200 →
        authenticate env status (.obj kvs) = .exitAfterToken)
    ∧ (∀ env kvs accessToken instanceUrl,
        envSet env.sfInstanceUrl = true → envSet env.sfConsumerKey = true →
        envSet env.sfConsumerSecret = true →
        lookupKey kvs "access_token" = some accessToken →
        lookupKey kvs "instance_url" = some instanceUrl →
        authenticate env 200 (.obj kvs) = .session accessToken instanceUrl) := by
  refine ⟨?_, ?_, ?_⟩
  · intro env status body h
    simp [authenticate, h]
  · intro env status kvs h1 h2 h3 hs
    simp [authenticate, h1, h2, h3, hs]
  · intro env kvs accessToken instanceUrl h1 h2 h3 ht hu
    simp [authenticate, h1, h2, h3, ht, hu]

/-- Claim C8 witness: a missing consumer secret exits before the
network; a 400 token response exits after it; a successful exchange
yields the session values. -/
theorem c8_authenticate_outcomes_witness :
    authenticate ⟨some "https://x.my.salesforce.com", some "key", none⟩ 200
        (.obj [("access_token", .str "t")]) = .exitBeforeNetwork
    ∧ authenticate ⟨some "https://x.my.salesforce.com", some "key", some "sec"⟩ 400
        (.obj [("error_description", .str "bad client")]) = .exitAfterToken
    ∧ authenticate ⟨some "https://x.my.salesforce.com", some "key", some "sec"⟩ 200
        (.obj [("access_token", .str "t"), ("instance_url", .str "u")]) =
        .session (.str "t") (.str "u") :=
  ⟨c8_authenticate_outcomes.1 _ 200 _ (by simp [envSet]),
   c8_authenticate_outcomes.2.1 _ 400 _ rfl rfl rfl (by decide),
   c8_authenticate_outcomes.2.2 _ _ (.str "t") (.str "u") rfl rfl rfl rfl rfl⟩

/-- Claim C10: `create_record` gates its success message on Python
truthiness, so the empty dict a 204 produces is treated like the
failure sentinel, while `update_record` and `delete_record` compare
against `None` and do report success on a 204; a success message from
create implies a truthy returned body. -/
theorem c10_success_check_asymmetry :
    (∀ body, create_record_reports_success (sf_request 204 body) = false)
    ∧ (∀ body, update_record_reports_success (sf_request 204 body) = true)
    ∧ (∀ body, delete_record_reports_success (sf_request 204 body) = true)
    ∧ create_record_reports_success .failure = false
    ∧ update_record_reports_success .failure = false
    ∧ (∀ j, create_record_reports_success (.ok j) = json_truthy j)
    ∧ (∀ res, create_record_reports_success res = true →
        ∃ j, res = .ok j ∧ json_truthy j = true) := by
  refine ⟨fun _ => rfl, fun _ => rfl, fun _ => rfl, rfl, rfl, fun _ => rfl, ?_⟩
  intro res h
  cases res with
  | ok j => exact ⟨j, rfl, h⟩
  | failure => exact absurd h (by simp [create_record_reports_success])
  | crash => exact absurd h (by simp [create_record_reports_success])

/-- Claim C10 witness: a POST result with a record id reports success
and its body is truthy. -/
theorem c10_success_check_asymmetry_witness :
    ∃ j, SfResult.ok (Json.obj [("id", .str "003XX")]) = .ok j ∧ json_truthy j = true :=
  c10_success_check_asymmetry.2.2.2.2.2.2 (.ok (.obj [("id", .str "003XX")])) rfl

end SalesforceCli
